import Mathlib

/-!
Verification development for the react-hooks-collection repository.

Shallow embedding of the two core hooks of `src/unnamed/part_003`:

* `useContainerRect` (the Rect Tracker): the `measure` change-detection step,
  the `getScrollParents` ancestor walk, and the detach / unmount cleanup paths.
* `useDragResize` (the Drag-Resize Controller): the `snapWidth` grid-snap step,
  the `constrainWH` constraint step, the pointer-move / pointer-up handlers and
  the frame-batched live-notification machinery.

JavaScript numbers are modelled by `ℚ` (all quantities involved are exact in
binary floating point at the scales of interest, and every operation used by
the code — addition, subtraction, multiplication, division by nonzero values,
`Math.round`, `Math.min`, `Math.max` — agrees with exact rational arithmetic
there); where the nonfinite values `Infinity` and `NaN` matter (the
`isFinite` guard of `snapWidth`), the extended type `JSNum` models them
explicitly.  `Math.round x` is `⌊x + 1/2⌋`: ties round toward positive
infinity (the ECMAScript definition), not away from zero.
-/

namespace ReactHooks

/-- JavaScript `Math.round`: the nearest integer, ties toward `+∞`,
i.e. `⌊q + 1/2⌋`. -/
def jsRound (q : ℚ) : ℤ := ⌊q + 1/2⌋

/-- The `clamp` helper of `useDragResize`:
`const clamp = (v, lo, hi) => Math.min(hi, Math.max(lo, v));`. -/
def clamp (v lo hi : ℚ) : ℚ := min hi (max lo v)

/-! ## Rect Tracker (`useContainerRect`) -/

/-- The `Rect` type: the subset of `DOMRectReadOnly` kept by the hook. -/
structure Rect where
  x : ℚ
  y : ℚ
  width : ℚ
  height : ℚ
  top : ℚ
  left : ℚ
  right : ℚ
  bottom : ℚ
deriving DecidableEq, Repr

/-- The frozen all-zero `DEFAULT_RECT` used as the initial state value. -/
def DEFAULT_RECT : Rect :=
  { x := 0, y := 0, width := 0, height := 0, top := 0, left := 0, right := 0, bottom := 0 }

/-- The rounded-field comparison inside `measure`: width, height, x and y are
compared after `Math.round`; `top`, `left`, `right`, `bottom` are not
inspected. -/
def sameRounded (prev r : Rect) : Bool :=
  jsRound prev.width = jsRound r.width &&
  jsRound prev.height = jsRound r.height &&
  jsRound prev.x = jsRound r.x &&
  jsRound prev.y = jsRound r.y

/-- The `measure` state-update step: `r` is the fresh
`getBoundingClientRect()` geometry, `prev` the previously published rect.
If every rounded field matches, the previous rect is returned unchanged
(in the source this is the same object reference, so no update is
signaled); otherwise a new rect is built from the unrounded geometry. -/
def measure (prev r : Rect) : Rect :=
  if sameRounded prev r then prev
  else
    { x := r.x, y := r.y, width := r.width, height := r.height,
      top := r.top, left := r.left, right := r.right, bottom := r.bottom }

/-- Observation bookkeeping of one `useContainerRect` instance: the published
rect plus the resources `cleanup` tears down (pending animation frame,
ResizeObserver, window-resize listener, scroll listeners). -/
structure TrackerState where
  rect : Rect
  attached : Bool
  rafPending : Bool
  observerActive : Bool
  resizeListenerActive : Bool
  scrollListenerCount : Nat
deriving DecidableEq, Repr

/-- The `cleanup` callback of `useContainerRect`: cancels a pending frame,
disconnects the observer and removes the window-resize and scroll listeners.
It does not touch the published rect. -/
def cleanupTracker (s : TrackerState) : TrackerState :=
  { s with rafPending := false, observerActive := false,
           resizeListenerActive := false, scrollListenerCount := 0 }

/-- The callback ref invoked with `null` (detach): `cleanup()` then
`nodeRef.current = node` and an early return. -/
def refDetach (s : TrackerState) : TrackerState :=
  let s1 := cleanupTracker s
  { s1 with attached := false }

/-- The `useLayoutEffect` unmount cleanup: `nodeRef.current = null; cleanup()`. -/
def unmountTracker (s : TrackerState) : TrackerState :=
  cleanupTracker { s with attached := false }

/-- The hook's initial state: `useState<Rect>(DEFAULT_RECT)` and empty
bookkeeping. -/
def initialTracker : TrackerState :=
  { rect := DEFAULT_RECT, attached := false, rafPending := false,
    observerActive := false, resizeListenerActive := false, scrollListenerCount := 0 }

/-! ## Scroll-parent discovery (`getScrollParents`) -/

/-- Computed `overflow-x` / `overflow-y` keyword values. -/
inductive Overflow
  | visible
  | hidden
  | clip
  | auto
  | scroll
  | overlay
deriving DecidableEq, Repr

/-- The regex test `/(auto|scroll|overlay)/.test(value)`: on the single
computed overflow keywords above, substring matching coincides with
membership in the set `\x7bauto, scroll, overlay\x7d`. -/
def overflowScrollable (o : Overflow) : Bool :=
  match o with
  | .auto => true
  | .scroll => true
  | .overlay => true
  | _ => false

/-- One ancestor element as seen by the walk: its computed overflow values and
whether it is `document.body`. -/
structure DomNode where
  overflowX : Overflow
  overflowY : Overflow
  isBody : Bool
deriving DecidableEq, Repr

/-- The scroll-container test of the loop body:
`/(auto|scroll|overlay)/.test(cs.overflowY) || /(auto|scroll|overlay)/.test(cs.overflowX)`. -/
def isScrollContainer (n : DomNode) : Bool :=
  overflowScrollable n.overflowY || overflowScrollable n.overflowX

/-- Result entries of `getScrollParents`: ancestor elements, or the global
window. -/
inductive ScrollTarget
  | elem (n : DomNode)
  | window
deriving DecidableEq, Repr

/-- The `while (n && n !== document.body)` loop of `getScrollParents`, applied
to the parent chain (nearest ancestor first): collects scroll containers, in
order, stopping at `document.body` (excluded) or at the end of the chain. -/
def walkScrollParents : List DomNode → List DomNode
  | [] => []
  | n :: rest =>
      if n.isBody then []
      else if isScrollContainer n then n :: walkScrollParents rest
      else walkScrollParents rest

/-- `getScrollParents(el)`.  `none` models `el === null` (return `[window]`);
`some chain` models an element whose parent chain (starting at
`el.parentElement`, nearest first) is `chain`.  The window is always pushed
as the final entry. -/
def getScrollParents (el : Option (List DomNode)) : List ScrollTarget :=
  match el with
  | none => [ScrollTarget.window]
  | some chain => (walkScrollParents chain).map ScrollTarget.elem ++ [ScrollTarget.window]

/-! ## Drag-Resize Controller (`useDragResize`) -/

/-- `ElementDimensions`: width and height in pixels. -/
structure ElementDimensions where
  width : ℚ
  height : ℚ
deriving DecidableEq, Repr

/-- `ResizeDirection`: the edge the handle resizes from. -/
inductive ResizeDirection
  | left
  | right
deriving DecidableEq, Repr

/-- The `Params` configuration object of `useDragResize`.  `gridPercent`
defaults to `100`, `live` to `false`; `maxHeight`, `initialWidth`,
`initialHeight`, `contentWidth`, `contentHeight` are optional
(`undefined` modelled as `none`).  `hasOnDimensionsChange` records whether an
`onDimensionsChange` callback was supplied; the callback itself is modelled
by the notification lists the handlers emit. -/
structure DragParams where
  initialWidth : Option ℚ
  initialHeight : Option ℚ
  minWidth : ℚ
  minHeight : ℚ
  maxWidth : ℚ
  maxHeight : Option ℚ
  gridPercent : ℚ
  contentWidth : Option ℚ
  contentHeight : Option ℚ
  live : Bool
  hasOnDimensionsChange : Bool
deriving DecidableEq, Repr

/-- `hasAspect`: both `contentWidth` and `contentHeight` supplied
(`!== null && !== undefined`). -/
def hasAspect (p : DragParams) : Bool :=
  p.contentWidth.isSome && p.contentHeight.isSome

/-- `aspect = hasAspect ? contentHeight / contentWidth : 1`
(height over width). -/
def aspect (p : DragParams) : ℚ :=
  if hasAspect p then p.contentHeight.getD 0 / p.contentWidth.getD 0 else 1

/-- The `useState` initialisation:
`\x7b width: initialWidth ?? minWidth, height: initialHeight ?? minHeight \x7d`.
No clamping is applied here. -/
def initialDimensions (p : DragParams) : ElementDimensions :=
  { width := p.initialWidth.getD p.minWidth, height := p.initialHeight.getD p.minHeight }

/-- The `snapWidth` step over `ℚ`.  The source's second guard is
`if (step <= 0 || !isFinite(step)) return proposed;`; over `ℚ` every value is
finite, so only `step ≤ 0` remains (the nonfinite cases are covered by the
`JSNum` embedding `snapWidthJS` below, which agrees with this one on finite
inputs). -/
def snapWidth (p : DragParams) (proposed boundaryWidth : ℚ) : ℚ :=
  let pct := clamp p.gridPercent 1 100
  if pct = 100 then proposed
  else
    let step := pct / 100 * boundaryWidth
    if step ≤ 0 then proposed
    else jsRound (proposed / step) * step

/-- The `constrainWH` step.  `currentHeight` is `dimsRef.current.height`.
`hi = maxHeight ?? Number.POSITIVE_INFINITY` followed by
`clamp(height, minHeight, hi)` is modelled by dropping the upper bound in the
`none` branch, since `min ∞ v = v`. -/
def constrainWH (p : DragParams) (currentHeight width : ℚ) : ElementDimensions :=
  let clampedW := clamp width p.minWidth p.maxWidth
  let height := if hasAspect p then clampedW * aspect p else max currentHeight p.minHeight
  let clampedH :=
    match p.maxHeight with
    | some hi => clamp height p.minHeight hi
    | none => max p.minHeight height
  { width := clampedW, height := clampedH }

/-- Per-gesture controller state: `dimsRef`, `startDimsRef`, `originXRef`,
`dirRef`, the `isResizing` flag and whether a live-notification animation
frame is pending (`rafIdRef !== null`). -/
structure DragState where
  dims : ElementDimensions
  startDims : ElementDimensions
  originX : ℚ
  dir : ResizeDirection
  resizing : Bool
  rafPending : Bool
deriving DecidableEq, Repr

/-- The signed displacement of `handlePointerMove`:
`dirRef.current === "left" ? originX - evt.pageX : evt.pageX - originX`. -/
def deltaX (dir : ResizeDirection) (originX pageX : ℚ) : ℚ :=
  match dir with
  | .left => originX - pageX
  | .right => pageX - originX

/-- `notifyLive`: with `live` and a callback present, cancel any pending
frame and schedule a fresh one (net state effect: a frame is pending);
otherwise an early return.  Nothing is emitted synchronously — the emission
happens when the frame fires (`rafFire`). -/
def notifyLive (p : DragParams) (s : DragState) : DragState :=
  if p.live && p.hasOnDimensionsChange then { s with rafPending := true } else s

/-- `handlePointerMove` for one pointer-move event at `pageX`: propose → snap
→ constrain, then the rounded-value deduplication gate before `setDims` and
`notifyLive`.  The second component lists the `onDimensionsChange`
invocations made synchronously by the handler (always none — live
notifications are frame-deferred). -/
def handlePointerMove (p : DragParams) (boundaryWidth : ℚ) (s : DragState) (pageX : ℚ) :
    DragState × List ElementDimensions :=
  let d := deltaX s.dir s.originX pageX
  let proposedW := s.startDims.width + d
  let snappedW := snapWidth p proposedW boundaryWidth
  let next := constrainWH p s.dims.height snappedW
  if jsRound s.dims.width ≠ jsRound next.width ∨ jsRound s.dims.height ≠ jsRound next.height then
    (notifyLive p { s with dims := next }, [])
  else (s, [])

/-- A pending live-notification animation frame firing:
`rafIdRef.current = null; onDimensionsChange(dimsRef.current)`. -/
def rafFire (s : DragState) : DragState × List ElementDimensions :=
  if s.rafPending then ({ s with rafPending := false }, [s.dims])
  else (s, [])

/-- `handlePointerUp`: `cleanup()` (removes the listeners and cancels any
pending frame), `setIsResizing(false)`, then — whatever `live` is — a single
direct `onDimensionsChange(dimsRef.current)` if a callback was supplied. -/
def handlePointerUp (p : DragParams) (s : DragState) : DragState × List ElementDimensions :=
  let s1 := { s with rafPending := false, resizing := false }
  (s1, if p.hasOnDimensionsChange then [s1.dims] else [])

/-- Events that can occur during an active drag session: a pointer-move, or
an animation frame firing. -/
inductive DragEvent
  | move (pageX : ℚ)
  | frame
deriving DecidableEq, Repr

/-- Dispatch one in-session event. -/
def dragStep (p : DragParams) (boundaryWidth : ℚ) (s : DragState) :
    DragEvent → DragState × List ElementDimensions
  | .move x => handlePointerMove p boundaryWidth s x
  | .frame => rafFire s

/-- Run a sequence of in-session events, concatenating all
`onDimensionsChange` invocations they emit. -/
def runDrag (p : DragParams) (boundaryWidth : ℚ) (s : DragState) :
    List DragEvent → DragState × List ElementDimensions
  | [] => (s, [])
  | e :: es =>
      let r := dragStep p boundaryWidth s e
      let rest := runDrag p boundaryWidth r.1 es
      (rest.1, r.2 ++ rest.2)

/-- `initiateResize` (the pointer-down handler): records the direction and
the starting pointer X, snapshots the clamped current dimensions as the
session baseline, and flips the resizing flag. -/
def initiateResize (p : DragParams) (direction : ResizeDirection) (pageX : ℚ)
    (s : DragState) : DragState :=
  { s with
    dir := direction,
    originX := pageX,
    startDims :=
      { width := clamp s.dims.width p.minWidth p.maxWidth,
        height :=
          match p.maxHeight with
          | some hi => clamp s.dims.height p.minHeight hi
          | none => max p.minHeight s.dims.height },
    resizing := true }

/-! ## Extended JavaScript numbers for the `isFinite` guard of `snapWidth` -/

/-- A JavaScript number: finite (exact rational), `Infinity`, `-Infinity` or
`NaN`.  The sign of zero is not tracked (it never influences the code paths
modelled here). -/
inductive JSNum
  | fin (q : ℚ)
  | posInf
  | negInf
  | nan
deriving DecidableEq, Repr

/-- `isFinite`. -/
def JSNum.isFiniteNum : JSNum → Bool
  | .fin _ => true
  | _ => false

/-- The JavaScript `<=` comparison: any comparison with `NaN` is false. -/
def JSNum.jsLe : JSNum → JSNum → Bool
  | .nan, _ => false
  | _, .nan => false
  | .negInf, _ => true
  | .fin _, .posInf => true
  | .fin a, .fin b => decide (a ≤ b)
  | .fin _, .negInf => false
  | .posInf, .posInf => true
  | .posInf, .fin _ => false
  | .posInf, .negInf => false

/-- IEEE-754 multiplication on the modelled values. -/
def JSNum.jsMul : JSNum → JSNum → JSNum
  | .nan, _ => .nan
  | _, .nan => .nan
  | .fin a, .fin b => .fin (a * b)
  | .fin a, .posInf => if a = 0 then .nan else if 0 < a then .posInf else .negInf
  | .fin a, .negInf => if a = 0 then .nan else if 0 < a then .negInf else .posInf
  | .posInf, .fin b => if b = 0 then .nan else if 0 < b then .posInf else .negInf
  | .negInf, .fin b => if b = 0 then .nan else if 0 < b then .negInf else .posInf
  | .posInf, .posInf => .posInf
  | .posInf, .negInf => .negInf
  | .negInf, .posInf => .negInf
  | .negInf, .negInf => .posInf

/-- IEEE-754 division on the modelled values (unsigned zero: `a / 0` for
`a ≠ 0` is given the sign of `a`, `0 / 0` is `NaN`). -/
def JSNum.jsDiv : JSNum → JSNum → JSNum
  | .nan, _ => .nan
  | _, .nan => .nan
  | .fin a, .fin b =>
      if b = 0 then (if a = 0 then .nan else if 0 < a then .posInf else .negInf)
      else .fin (a / b)
  | .fin _, .posInf => .fin 0
  | .fin _, .negInf => .fin 0
  | .posInf, .fin b => if 0 ≤ b then .posInf else .negInf
  | .negInf, .fin b => if 0 ≤ b then .negInf else .posInf
  | .posInf, _ => .nan
  | .negInf, _ => .nan

/-- `Math.round` on a JavaScript number: `NaN` and the infinities are
returned unchanged. -/
def JSNum.jsRoundNum : JSNum → JSNum
  | .fin q => .fin (jsRound q)
  | x => x

/-- `snapWidth` over full JavaScript numbers, including the
`if (step <= 0 || !isFinite(step)) return proposed;` guard verbatim.
The configuration value `gridPercent` is a plain finite number. -/
def snapWidthJS (gridPercent : ℚ) (proposed boundaryWidth : JSNum) : JSNum :=
  let pct := clamp gridPercent 1 100
  if pct = 100 then proposed
  else
    let step := JSNum.jsMul (.fin (pct / 100)) boundaryWidth
    if step.jsLe (.fin 0) || !step.isFiniteNum then proposed
    else (proposed.jsDiv step).jsRoundNum.jsMul step

/-! ## Concrete configurations used by counterexamples and witnesses -/

/-- A baseline configuration: `minWidth=100, minHeight=100, maxWidth=500`,
everything optional absent, defaults for the rest. -/
def baseParams : DragParams :=
  { initialWidth := none, initialHeight := none, minWidth := 100, minHeight := 100,
    maxWidth := 500, maxHeight := none, gridPercent := 100, contentWidth := none,
    contentHeight := none, live := false, hasOnDimensionsChange := false }

/-- 16:9 aspect-locked configuration. -/
def Pc1 : DragParams := { baseParams with contentWidth := some 16, contentHeight := some 9 }

/-- Grid snapping at 25 percent. -/
def Pc2 : DragParams := { baseParams with gridPercent := 25 }

/-- Callback supplied, `live = false`. -/
def Pc4 : DragParams := { baseParams with hasOnDimensionsChange := true }

/-- Bounded height: `maxHeight = 300`, no aspect lock. -/
def Pc5 : DragParams := { baseParams with maxHeight := some 300 }

/-- An out-of-range `initialWidth = 50` below `minWidth = 100`. -/
def Pc6 : DragParams := { baseParams with initialWidth := some 50 }

/-- A drag-session state at dimensions 200 × 200 started at `pageX = 200`
from the right edge. -/
def Sdrag : DragState :=
  { dims := { width := 200, height := 200 },
    startDims := { width := 200, height := 200 },
    originX := 200, dir := ResizeDirection.right, resizing := true, rafPending := false }

/-- A nonzero measured rect. -/
def R1 : Rect :=
  { x := 10, y := 20, width := 30, height := 40, top := 20, left := 10, right := 40, bottom := 60 }

/-- A tracker that has published `R1` and holds live observation resources. -/
def Sc7 : TrackerState :=
  { rect := R1, attached := true, rafPending := true, observerActive := true,
    resizeListenerActive := true, scrollListenerCount := 2 }

/-- Rounding ties away from zero — the rounding rule the specification text
ascribes to the grid-snap step (written from the spec's words, for comparison
with the source's `Math.round`). -/
def roundTiesAway (q : ℚ) : ℤ :=
  if 0 ≤ q then ⌊q + 1/2⌋ else -⌊-q + 1/2⌋

/-- The spec's data-model invariant on `ElementDimensions`: both components
positive and within `[minWidth, maxWidth] × [minHeight, maxHeight]`, with
`maxHeight` defaulting to unbounded. -/
def dimsInRange (p : DragParams) (d : ElementDimensions) : Prop :=
  0 < d.width ∧ p.minWidth ≤ d.width ∧ d.width ≤ p.maxWidth ∧
  0 < d.height ∧ p.minHeight ≤ d.height ∧
  (match p.maxHeight with
   | some hi => d.height ≤ hi
   | none => True)

/-- A previously published rect with whole-pixel geometry. -/
def Rprev : Rect :=
  { x := 0, y := 0, width := 100, height := 50, top := 0, left := 0, right := 100, bottom := 50 }

/-- A fresh geometry differing from `Rprev` only sub-pixel
(width `100.2`). -/
def Rnear : Rect :=
  { x := 0, y := 0, width := 501/5, height := 50, top := 0, left := 0,
    right := 501/5, bottom := 50 }

/-- A fresh geometry differing from `Rprev` by a whole pixel or more. -/
def Rfar : Rect :=
  { x := 0, y := 0, width := 200, height := 50, top := 0, left := 0, right := 200, bottom := 50 }

/-- A non-scrollable, non-body ancestor. -/
def NodePlain : DomNode :=
  { overflowX := Overflow.visible, overflowY := Overflow.visible, isBody := false }

/-! ## Theorems -/

section MainTheorems

attribute [local semireducible] Rat.add Rat.mul Rat.inv Rat.sub

/-- `clamp` never exceeds its upper bound. -/
theorem clamp_le_hi (v lo hi : ℚ) : clamp v lo hi ≤ hi := min_le_left hi (max lo v)

/-- `clamp` stays above its lower bound when the bounds are ordered. -/
theorem lo_le_clamp (v lo hi : ℚ) (h : lo ≤ hi) : lo ≤ clamp v lo hi :=
  le_min h (le_max_left lo v)

/-- Values at or above the upper bound clamp to it exactly. -/
theorem clamp_of_hi_le (v lo hi : ℚ) (h : hi ≤ v) : clamp v lo hi = hi :=
  min_eq_left (le_trans h (le_max_right lo v))

/-- Values at or below the lower bound clamp to it exactly when the bounds
are ordered. -/
theorem clamp_of_le_lo (v lo hi : ℚ) (h : v ≤ lo) (hlh : lo ≤ hi) : clamp v lo hi = lo := by
  rw [clamp, max_eq_left h, min_eq_right hlh]

/-- Claim C1: during a drag, the constrain step maps the snapped width `w` to
`min(maxWidth, max(minWidth, w))`; a width at or beyond `maxWidth` yields
exactly `maxWidth` and one at or below `minWidth` yields exactly `minWidth`;
with aspect lock active the height is `width' * (contentHeight/contentWidth)`
clamped to `[minHeight, maxHeight-or-infinity]`; in particular with
`contentWidth = 16`, `contentHeight = 9`, width `320` yields height exactly
`180`. -/
theorem c1_constrain_clamps (p : DragParams) (curH w : ℚ)
    (hw : p.minWidth ≤ p.maxWidth) :
    (constrainWH p curH w).width = min p.maxWidth (max p.minWidth w) ∧
    (p.maxWidth ≤ w → (constrainWH p curH w).width = p.maxWidth) ∧
    (w ≤ p.minWidth → (constrainWH p curH w).width = p.minWidth) ∧
    (hasAspect p = true → (constrainWH p curH w).height =
      (match p.maxHeight with
       | some hi =>
           clamp (clamp w p.minWidth p.maxWidth * (p.contentHeight.getD 0 / p.contentWidth.getD 0))
             p.minHeight hi
       | none =>
           max p.minHeight
             (clamp w p.minWidth p.maxWidth * (p.contentHeight.getD 0 / p.contentWidth.getD 0)))) ∧
    constrainWH Pc1 200 320 = { width := 320, height := 180 } := by
  refine ⟨rfl, ?_, ?_, ?_, by decide⟩
  · intro h
    exact clamp_of_hi_le w p.minWidth p.maxWidth h
  · intro h
    exact clamp_of_le_lo w p.minWidth p.maxWidth h hw
  · intro h
    cases hmh : p.maxHeight with
    | none => simp [constrainWH, h, aspect, hmh]
    | some hi => simp [constrainWH, h, aspect, hmh]

/-- Claim C1 witness: with the 16:9 configuration, a drag far beyond
`maxWidth = 500` clamps to exactly `500`. -/
theorem c1_witness :
    Pc1.minWidth ≤ Pc1.maxWidth ∧ Pc1.maxWidth ≤ 9999 ∧
    (constrainWH Pc1 200 9999).width = Pc1.maxWidth :=
  ⟨by decide, by decide, (c1_constrain_clamps Pc1 200 9999 (by decide)).2.1 (by decide)⟩

/-- Claim C2 counterexample: with `gridPercent = 25`, `boundaryWidth = 500`
(step `125`) and proposed width `-62.5`, the code snaps to `0`
(`Math.round(-0.5) = 0`, ties toward `+∞`), while rounding ties away from
zero — as the claim prescribes — would give `-125`. -/
theorem c2_counterexample :
    clamp Pc2.gridPercent 1 100 ≠ 100 ∧
    snapWidth Pc2 (-125/2) 500 = 0 ∧
    (roundTiesAway ((-125/2) / (clamp Pc2.gridPercent 1 100 / 100 * 500)) *
      (clamp Pc2.gridPercent 1 100 / 100 * 500) : ℚ) = -125 ∧
    (0 : ℚ) ≠ -125 := by decide

/-- Claim C2 amended: with `pct = gridPercent` clamped to `[1, 100]`, the
grid-snap step returns `w` unchanged when `pct = 100`; otherwise, whenever
the step `(pct/100) * boundaryWidth` is positive, it returns
`round(w/step) * step` under JavaScript `Math.round` — round-to-nearest with
ties toward `+∞` (not away from zero); in particular for `gridPercent = 25`
and `boundaryWidth = 500` every proposed width snaps to the nearest multiple
of `125`, e.g. `300 ↦ 250` and `270 ↦ 250`. -/
theorem c2_snap_rounds (p : DragParams) (w b : ℚ) :
    (clamp p.gridPercent 1 100 = 100 → snapWidth p w b = w) ∧
    (clamp p.gridPercent 1 100 ≠ 100 → 0 < clamp p.gridPercent 1 100 / 100 * b →
      snapWidth p w b =
        jsRound (w / (clamp p.gridPercent 1 100 / 100 * b)) *
          (clamp p.gridPercent 1 100 / 100 * b)) ∧
    snapWidth Pc2 300 500 = 250 ∧ snapWidth Pc2 270 500 = 250 := by
  refine ⟨?_, ?_, by decide, by decide⟩
  · intro h
    simp [snapWidth, h]
  · intro h hpos
    simp [snapWidth, h, not_le.mpr hpos]

/-- Claim C2 witness: the amended rounding equation at `gridPercent = 25`,
proposed `300`, boundary `500`. -/
theorem c2_witness :
    clamp Pc2.gridPercent 1 100 ≠ 100 ∧
    0 < clamp Pc2.gridPercent 1 100 / 100 * 500 ∧
    snapWidth Pc2 300 500 =
      jsRound (300 / (clamp Pc2.gridPercent 1 100 / 100 * 500)) *
        (clamp Pc2.gridPercent 1 100 / 100 * 500) :=
  ⟨by decide, by decide, (c2_snap_rounds Pc2 300 500).2.1 (by decide) (by decide)⟩

/-- Claim C3: when the fresh geometry matches the previously published rect
on all four rounded fields, `measure` returns the previous rect itself (no
update signaled), so measurement of unchanged geometry is idempotent; when
any rounded field differs it publishes a new rect built from the unrounded
geometry. -/
theorem c3_measure_idempotent (prev r : Rect) :
    (sameRounded prev r = true → measure prev r = prev) ∧
    (sameRounded prev r = false →
      measure prev r =
        { x := r.x, y := r.y, width := r.width, height := r.height,
          top := r.top, left := r.left, right := r.right, bottom := r.bottom }) ∧
    measure (measure prev r) r = measure prev r := by
  refine ⟨fun h => by simp [measure, h], fun h => by simp [measure, h], ?_⟩
  by_cases h : sameRounded prev r
  · simp [measure, h]
  · simp only [measure, h, Bool.false_eq_true, if_false, if_neg]
    simp [sameRounded]

/-- Claim C3 witness: a sub-pixel change (width `100` vs `100.2`) keeps the
previous rect; a whole-pixel change (width `100` vs `200`) publishes the
unrounded fresh geometry. -/
theorem c3_witness :
    (sameRounded Rprev Rnear = true ∧ measure Rprev Rnear = Rprev) ∧
    (sameRounded Rprev Rfar = false ∧
      measure Rprev Rfar =
        { x := Rfar.x, y := Rfar.y, width := Rfar.width, height := Rfar.height,
          top := Rfar.top, left := Rfar.left, right := Rfar.right, bottom := Rfar.bottom }) :=
  ⟨⟨by decide, (c3_measure_idempotent Rprev Rnear).1 (by decide)⟩,
   ⟨by decide, (c3_measure_idempotent Rprev Rfar).2.1 (by decide)⟩⟩

/-- A pointer-move handler invocation emits no callback synchronously (live
notifications are deferred to an animation frame). -/
theorem handlePointerMove_emits_nothing (p : DragParams) (b : ℚ) (s : DragState) (x : ℚ) :
    (handlePointerMove p b s x).2 = [] := by
  simp only [handlePointerMove]
  split <;> rfl

/-- With `live = false`, `notifyLive` never schedules a frame, so pointer-move
leaves the pending-frame flag untouched. -/
theorem handlePointerMove_rafPending_of_not_live (p : DragParams) (b : ℚ) (s : DragState)
    (x : ℚ) (hl : p.live = false) :
    (handlePointerMove p b s x).1.rafPending = s.rafPending := by
  simp only [handlePointerMove, notifyLive, hl, Bool.false_and, Bool.false_eq_true, if_false]
  split <;> rfl

/-- With `live = false` and no frame already pending, a whole session of
pointer-moves and frame flushes emits no callback at all. -/
theorem runDrag_emits_nothing_of_not_live (p : DragParams) (b : ℚ) (es : List DragEvent)
    (hl : p.live = false) :
    ∀ s : DragState, s.rafPending = false → (runDrag p b s es).2 = [] := by
  induction es with
  | nil => intro s _; rfl
  | cons e es ih =>
    intro s hs
    cases e with
    | move x =>
      simp only [runDrag, dragStep]
      rw [handlePointerMove_emits_nothing, List.nil_append]
      exact ih _ (by rw [handlePointerMove_rafPending_of_not_live p b s x hl, hs])
    | frame =>
      simp only [runDrag, dragStep, rafFire, hs, Bool.false_eq_true, if_false]
      rw [List.nil_append]
      exact ih s hs

/-- Claim C4: with `live = false` the callback is never invoked during
pointer-move (including at frame flushes); and on pointer-up, for any `live`
setting, the callback is invoked exactly once with the final dimensions when
supplied (the pending frame having been cancelled by cleanup first), and not
at all when absent. -/
theorem c4_callback_policy (p : DragParams) (b : ℚ) (s : DragState) (es : List DragEvent) :
    (p.live = false → s.rafPending = false → (runDrag p b s es).2 = []) ∧
    (p.hasOnDimensionsChange = true →
      (handlePointerUp p s).2 = [s.dims] ∧ (rafFire (handlePointerUp p s).1).2 = []) ∧
    (p.hasOnDimensionsChange = false → (handlePointerUp p s).2 = []) := by
  refine ⟨fun hl hs => runDrag_emits_nothing_of_not_live p b es hl s hs, ?_, ?_⟩
  · intro hc
    simp [handlePointerUp, rafFire, hc]
  · intro hc
    simp [handlePointerUp, hc]

/-- Claim C4 witness: a concrete `live = false` session (one move to
`pageX = 250`, one frame flush) emits nothing, and its pointer-up emits
exactly the final dimensions once. -/
theorem c4_witness :
    (Pc4.live = false ∧ Sdrag.rafPending = false ∧
      (runDrag Pc4 500 Sdrag [DragEvent.move 250, DragEvent.frame]).2 = []) ∧
    (Pc4.hasOnDimensionsChange = true ∧ (handlePointerUp Pc4 Sdrag).2 = [Sdrag.dims]) :=
  ⟨⟨by decide, by decide,
    (c4_callback_policy Pc4 500 Sdrag [DragEvent.move 250, DragEvent.frame]).1
      (by decide) (by decide)⟩,
   ⟨by decide, ((c4_callback_policy Pc4 500 Sdrag []).2.1 (by decide)).1⟩⟩

/-- Claim C5 counterexample: without aspect lock, `minHeight = 100`,
`maxHeight = 300` and a last-known height of `400` (which is above
`minHeight`, so the claim says it is left unchanged), the constrain step
returns height `300`: the unlocked height IS ceiling-clamped against
`maxHeight`. -/
theorem c5_counterexample :
    hasAspect Pc5 = false ∧ Pc5.minHeight ≤ 400 ∧
    (constrainWH Pc5 400 200).height = 300 ∧ (300 : ℚ) ≠ 400 := by decide

/-- Claim C5 amended: without aspect lock the resulting height is the
last-known height raised to `minHeight`, and — contrary to the claim — then
additionally ceiling-clamped to `maxHeight` whenever `maxHeight` is supplied;
only with `maxHeight` absent is it left unchanged above `minHeight`. -/
theorem c5_unlocked_height (p : DragParams) (curH w : ℚ) (h : hasAspect p = false) :
    (constrainWH p curH w).height =
      (match p.maxHeight with
       | some hi => min hi (max curH p.minHeight)
       | none => max curH p.minHeight) := by
  have key : max p.minHeight (max curH p.minHeight) = max curH p.minHeight := by
    rw [max_comm curH p.minHeight, ← max_assoc, max_self]
  cases hmh : p.maxHeight with
  | none =>
    simp only [constrainWH, h, Bool.false_eq_true, if_false, hmh]
    exact key
  | some hi =>
    simp only [constrainWH, h, Bool.false_eq_true, if_false, hmh, clamp]
    rw [max_comm curH p.minHeight] at key ⊢
    rw [key]

/-- Claim C5 witness: the amended statement at the concrete configuration of
the counterexample (`maxHeight = 300`, last-known height `400`). -/
theorem c5_witness :
    hasAspect Pc5 = false ∧
    (constrainWH Pc5 400 200).height =
      (match Pc5.maxHeight with
       | some hi => min hi (max 400 Pc5.minHeight)
       | none => max 400 Pc5.minHeight) :=
  ⟨by decide, c5_unlocked_height Pc5 400 200 (by decide)⟩

/-- Claim C6 counterexample: with `initialWidth = 50` and `minWidth = 100`,
the state immediately after hook initialization has width `50`, outside
`[minWidth, maxWidth]` — initialization does not clamp. -/
theorem c6_counterexample :
    (initialDimensions Pc6).width = 50 ∧ Pc6.minWidth = 100 ∧
    ¬ Pc6.minWidth ≤ (initialDimensions Pc6).width := by decide

/-- Claim C6 amended: under sane bounds (`0 < minWidth ≤ maxWidth`,
`0 < minHeight ≤ maxHeight-when-supplied`), the dimensions invariant holds at
initialization when `initialWidth`/`initialHeight` are omitted (they default
to the minima), holds of every constrain-step output, and is preserved by
every pointer-move; but bare initialization performs no clamping, so an
out-of-range initial value violates it (see the counterexample). -/
theorem c6_invariant (p : DragParams) (curH w : ℚ)
    (h1 : 0 < p.minWidth) (h2 : p.minWidth ≤ p.maxWidth) (h3 : 0 < p.minHeight)
    (h4 : match p.maxHeight with | some hi => p.minHeight ≤ hi | none => True) :
    (p.initialWidth = none → p.initialHeight = none →
      dimsInRange p (initialDimensions p)) ∧
    dimsInRange p (constrainWH p curH w) ∧
    (∀ (s : DragState) (b x : ℚ), dimsInRange p s.dims →
      dimsInRange p (handlePointerMove p b s x).1.dims) := by
  have hconstrain : ∀ cH ww : ℚ, dimsInRange p (constrainWH p cH ww) := by
    intro cH ww
    refine ⟨lt_of_lt_of_le h1 (lo_le_clamp ww p.minWidth p.maxWidth h2),
      lo_le_clamp ww p.minWidth p.maxWidth h2, clamp_le_hi ww p.minWidth p.maxWidth, ?_, ?_, ?_⟩
    · cases hmh : p.maxHeight with
      | none =>
        simp only [constrainWH, hmh]
        exact lt_of_lt_of_le h3 (le_max_left p.minHeight _)
      | some hi =>
        rw [hmh] at h4
        simp only [constrainWH, hmh]
        exact lt_of_lt_of_le h3 (lo_le_clamp _ p.minHeight hi h4)
    · cases hmh : p.maxHeight with
      | none =>
        simp only [constrainWH, hmh]
        exact le_max_left p.minHeight _
      | some hi =>
        rw [hmh] at h4
        simp only [constrainWH, hmh]
        exact lo_le_clamp _ p.minHeight hi h4
    · cases hmh : p.maxHeight with
      | none => simp only [constrainWH, hmh]
      | some hi =>
        simp only [constrainWH, hmh]
        exact clamp_le_hi _ p.minHeight hi
  refine ⟨?_, hconstrain curH w, ?_⟩
  · intro hiw hih
    simp only [initialDimensions, hiw, hih, Option.getD_none]
    exact ⟨h1, le_refl _, h2, h3, le_refl _, h4⟩
  · intro s b x hdims
    simp only [handlePointerMove, notifyLive]
    split
    · split
      · exact hconstrain s.dims.height _
      · exact hconstrain s.dims.height _
    · exact hdims

/-- Claim C6 witness: the constrain-step output satisfies the invariant at
the baseline configuration for a far-out-of-range proposed width. -/
theorem c6_witness :
    (0 < baseParams.minWidth ∧ baseParams.minWidth ≤ baseParams.maxWidth ∧
      0 < baseParams.minHeight) ∧
    dimsInRange baseParams (constrainWH baseParams 200 9999) :=
  ⟨⟨by decide, by decide, by decide⟩,
   (c6_invariant baseParams 200 9999 (by decide) (by decide) (by decide) trivial).2.1⟩

/-- Claim C7 counterexample: a tracker that has published the nonzero rect
`R1` keeps `R1` as its published value across the null-detach path and the
unmount cleanup — neither path resets the rect to the all-zero
`DEFAULT_RECT`. -/
theorem c7_counterexample :
    (refDetach Sc7).rect = R1 ∧ (unmountTracker Sc7).rect = R1 ∧
    R1 ≠ DEFAULT_RECT := by decide

/-- Claim C7 amended: invoking the attach callback with null, or tearing the
tracker down, cancels the pending measurement, disconnects the observer and
removes all listeners, but leaves the published rect at its last value; the
fixed all-zero `DEFAULT_RECT` is only the initial state value, never a reset
target. -/
theorem c7_detach_keeps_rect (s : TrackerState) :
    (refDetach s).rect = s.rect ∧ (unmountTracker s).rect = s.rect ∧
    refDetach s =
      { rect := s.rect, attached := false, rafPending := false, observerActive := false,
        resizeListenerActive := false, scrollListenerCount := 0 } ∧
    unmountTracker s =
      { rect := s.rect, attached := false, rafPending := false, observerActive := false,
        resizeListenerActive := false, scrollListenerCount := 0 } ∧
    initialTracker.rect = DEFAULT_RECT :=
  ⟨rfl, rfl, rfl, rfl, rfl⟩

/-- `notifyLive` never changes the dimensions, only the pending-frame flag. -/
theorem notifyLive_dims (p : DragParams) (t : DragState) :
    (notifyLive p t).dims = t.dims := by
  simp only [notifyLive]
  split <;> rfl

/-- Two pointer-move invocations whose sessions agree on dimensions, session
baseline and signed displacement produce the same resulting dimensions. -/
theorem handlePointerMove_dims_congr (p : DragParams) (b : ℚ) (s1 s2 : DragState)
    (x1 x2 : ℚ) (hdims : s1.dims = s2.dims) (hstart : s1.startDims = s2.startDims)
    (hdelta : deltaX s1.dir s1.originX x1 = deltaX s2.dir s2.originX x2) :
    (handlePointerMove p b s1 x1).1.dims = (handlePointerMove p b s2 x2).1.dims := by
  simp only [handlePointerMove]
  rw [hdelta, hdims, hstart]
  simp only [apply_ite (fun z : DragState × List ElementDimensions => z.1.dims),
    notifyLive_dims]
  rw [hdims]

/-- Claim C8: the signed displacement is `pageX - originX` for a right-
direction handle and `originX - pageX` for a left-direction handle, so the
two directions produce sign-inverted width deltas at the same pointer
position, and mirrored movements of equal magnitude produce equal resulting
dimensions. -/
theorem c8_direction_symmetry (p : DragParams) (b : ℚ) (s : DragState) (o d pageX : ℚ) :
    deltaX ResizeDirection.left o pageX = -deltaX ResizeDirection.right o pageX ∧
    deltaX ResizeDirection.left o (o - d) = d ∧
    deltaX ResizeDirection.right o (o + d) = d ∧
    (handlePointerMove p b { s with dir := ResizeDirection.left, originX := o } (o - d)).1.dims =
      (handlePointerMove p b { s with dir := ResizeDirection.right, originX := o } (o + d)).1.dims := by
  have h1 : deltaX ResizeDirection.left o (o - d) = d := by simp [deltaX]
  have h2 : deltaX ResizeDirection.right o (o + d) = d := by simp [deltaX]
  refine ⟨by simp [deltaX], h1, h2, ?_⟩
  exact handlePointerMove_dims_congr p b _ _ _ _ rfl rfl (h1.trans h2.symm)

/-- The `while` loop of `getScrollParents` collects, in nearest-first order,
exactly the scroll containers among the ancestors strictly before
`document.body`. -/
theorem walkScrollParents_eq_filter (chain : List DomNode) :
    walkScrollParents chain =
      (chain.takeWhile (fun n => !n.isBody)).filter isScrollContainer := by
  induction chain with
  | nil => rfl
  | cons n rest ih =>
    by_cases hb : n.isBody
    · simp [walkScrollParents, hb, List.takeWhile_cons]
    · by_cases hs : isScrollContainer n
      · simp [walkScrollParents, hb, hs, List.takeWhile_cons, List.filter_cons, ih]
      · simp [walkScrollParents, hb, hs, List.takeWhile_cons, List.filter_cons, ih]

/-- Claim C9: the scroll-parent set walks the parent chain up to but not
including `document.body`, keeps exactly the ancestors whose overflow-x or
overflow-y is auto, scroll, or overlay, in nearest-ancestor-first order, and
always appends the window as the final entry; with no scrollable ancestor
the result is exactly `[window]` (also for a null element). -/
theorem c9_scroll_parents_spec (chain : List DomNode) :
    getScrollParents none = [ScrollTarget.window] ∧
    getScrollParents (some chain) =
      ((chain.takeWhile (fun n => !n.isBody)).filter isScrollContainer).map
        ScrollTarget.elem ++ [ScrollTarget.window] ∧
    ((∀ n ∈ chain.takeWhile (fun n => !n.isBody), isScrollContainer n = false) →
      getScrollParents (some chain) = [ScrollTarget.window]) := by
  refine ⟨rfl, by simp [getScrollParents, walkScrollParents_eq_filter], ?_⟩
  intro h
  have hf : (chain.takeWhile (fun n => !n.isBody)).filter isScrollContainer = [] :=
    List.filter_eq_nil_iff.mpr (fun a ha => by simp [h a ha])
  simp [getScrollParents, walkScrollParents_eq_filter, hf]

/-- Claim C9 witness: an element whose only ancestor is a plain
(non-scrollable, non-body) node yields exactly `[window]`. -/
theorem c9_witness :
    (∀ n ∈ ([NodePlain] : List DomNode).takeWhile (fun n => !n.isBody),
      isScrollContainer n = false) ∧
    getScrollParents (some [NodePlain]) = [ScrollTarget.window] :=
  ⟨by decide, (c9_scroll_parents_spec [NodePlain]).2.2 (by decide)⟩

/-- The clamped grid percentage is at least `1`. -/
theorem one_le_clampedPct (g : ℚ) : 1 ≤ clamp g 1 100 :=
  le_min (by norm_num) (le_max_left 1 g)

/-- The clamped grid percentage divided by `100` is positive. -/
theorem clampedPct_div_pos (g : ℚ) : 0 < clamp g 1 100 / 100 :=
  div_pos (lt_of_lt_of_le one_pos (one_le_clampedPct g)) (by norm_num)

/-- Claim C10: whenever the snap step `(clamped gridPercent / 100) *
boundaryWidth` is zero, negative or nonfinite — in particular for
`boundaryWidth = 0`, `Infinity` or `NaN` — the grid-snap step returns the
proposed width unchanged, and for a finite proposed width the snap
computation always yields a finite number (never `NaN` or an infinity). -/
theorem c10_degenerate_snap (g : ℚ) (w b : JSNum) (q : ℚ) :
    (clamp g 1 100 ≠ 100 →
      ((JSNum.jsMul (JSNum.fin (clamp g 1 100 / 100)) b).jsLe (JSNum.fin 0) = true ∨
        (JSNum.jsMul (JSNum.fin (clamp g 1 100 / 100)) b).isFiniteNum = false) →
      snapWidthJS g w b = w) ∧
    snapWidthJS g w (JSNum.fin 0) = w ∧
    snapWidthJS g w JSNum.posInf = w ∧
    snapWidthJS g w JSNum.negInf = w ∧
    snapWidthJS g w JSNum.nan = w ∧
    (∃ r : ℚ, snapWidthJS g (JSNum.fin q) b = JSNum.fin r) := by
  have hpos := clampedPct_div_pos g
  have hguard : clamp g 1 100 ≠ 100 →
      ∀ v : JSNum,
        ((JSNum.jsMul (JSNum.fin (clamp g 1 100 / 100)) b).jsLe (JSNum.fin 0) = true ∨
          (JSNum.jsMul (JSNum.fin (clamp g 1 100 / 100)) b).isFiniteNum = false) →
        snapWidthJS g v b = v := by
    intro h v hdeg
    simp only [snapWidthJS, if_neg h]
    rcases hdeg with ha | ha <;> simp [ha]
  have h0 : ∀ v : JSNum, snapWidthJS g v (JSNum.fin 0) = v := by
    intro v
    by_cases hp : clamp g 1 100 = 100
    · simp [snapWidthJS, hp]
    · simp [snapWidthJS, hp, JSNum.jsMul, JSNum.jsLe]
  have hpInf : ∀ v : JSNum, snapWidthJS g v JSNum.posInf = v := by
    intro v
    by_cases hp : clamp g 1 100 = 100
    · simp [snapWidthJS, hp]
    · simp [snapWidthJS, hp, JSNum.jsMul, JSNum.jsLe, JSNum.isFiniteNum,
        hpos, hpos.ne']
  have hnInf : ∀ v : JSNum, snapWidthJS g v JSNum.negInf = v := by
    intro v
    by_cases hp : clamp g 1 100 = 100
    · simp [snapWidthJS, hp]
    · simp [snapWidthJS, hp, JSNum.jsMul, JSNum.jsLe, JSNum.isFiniteNum,
        hpos, hpos.ne']
  have hnan : ∀ v : JSNum, snapWidthJS g v JSNum.nan = v := by
    intro v
    by_cases hp : clamp g 1 100 = 100
    · simp [snapWidthJS, hp]
    · simp [snapWidthJS, hp, JSNum.jsMul, JSNum.jsLe, JSNum.isFiniteNum]
  refine ⟨fun h hdeg => hguard h w hdeg, h0 w, hpInf w, hnInf w, hnan w, ?_⟩
  by_cases hp : clamp g 1 100 = 100
  · exact ⟨q, by simp [snapWidthJS, hp]⟩
  · cases b with
    | fin bq =>
      by_cases hs : clamp g 1 100 / 100 * bq ≤ 0
      · exact ⟨q, by simp [snapWidthJS, hp, JSNum.jsMul, JSNum.jsLe, hs]⟩
      · have hne : clamp g 1 100 / 100 * bq ≠ 0 := fun hh => hs (le_of_eq hh)
        refine ⟨jsRound (q / (clamp g 1 100 / 100 * bq)) * (clamp g 1 100 / 100 * bq), ?_⟩
        simp [snapWidthJS, hp, hs, hne, JSNum.jsMul, JSNum.jsLe, JSNum.isFiniteNum,
          JSNum.jsDiv, JSNum.jsRoundNum]
    | posInf => exact ⟨q, hpInf (JSNum.fin q)⟩
    | negInf => exact ⟨q, hnInf (JSNum.fin q)⟩
    | nan => exact ⟨q, hnan (JSNum.fin q)⟩

/-- Claim C10 witness: with `gridPercent = 25` and `boundaryWidth = 0`, every
proposed width — concretely `300` — is returned unchanged (the guard sees
step `0`). -/
theorem c10_witness :
    (clamp (25 : ℚ) 1 100 ≠ 100 ∧
      (JSNum.jsMul (JSNum.fin (clamp (25 : ℚ) 1 100 / 100)) (JSNum.fin 0)).jsLe
        (JSNum.fin 0) = true) ∧
    snapWidthJS 25 (JSNum.fin 300) (JSNum.fin 0) = JSNum.fin 300 :=
  ⟨⟨by decide, by decide⟩,
   (c10_degenerate_snap 25 (JSNum.fin 300) (JSNum.fin 0) 300).1 (by decide)
     (Or.inl (by decide))⟩

/-- On finite values the extended-number embedding of `snapWidth` agrees with
the rational one. -/
theorem snapWidthJS_agrees (p : DragParams) (w b : ℚ) :
    snapWidthJS p.gridPercent (JSNum.fin w) (JSNum.fin b) = JSNum.fin (snapWidth p w b) := by
  by_cases hp : clamp p.gridPercent 1 100 = 100
  · simp [snapWidthJS, snapWidth, hp]
  · by_cases hs : clamp p.gridPercent 1 100 / 100 * b ≤ 0
    · simp [snapWidthJS, snapWidth, hp, hs, JSNum.jsMul, JSNum.jsLe]
    · have hne : clamp p.gridPercent 1 100 / 100 * b ≠ 0 := fun hh => hs (le_of_eq hh)
      simp [snapWidthJS, snapWidth, hp, hs, hne, JSNum.jsMul, JSNum.jsLe,
        JSNum.isFiniteNum, JSNum.jsDiv, JSNum.jsRoundNum]

end MainTheorems

end ReactHooks
